import Mathlib

/-!
Shallow embedding of `internship_application_tracker/cleanup_excel.py`
(class `JobURLChecker`): the liveness classifier `check_url`, the retry
controller `_single_url_task`, the concurrent dispatcher `process_urls`,
and the CSV serializer `save_results_to_csv`.

Network I/O is modelled by oracles: a `HeadOutcome` describes what the
HEAD request did, a `GetOutcome` what the GET request did.  HTML parsing
by the external BeautifulSoup library is modelled by letting the GET
outcome carry, alongside the raw body text, the list of parsed `meta`
tags (each an attribute association list).  Sleeps (the 429 backoff and
the inter-attempt delay) only consume time and are dropped from the pure
embedding; the control flow around them is kept exactly.
-/

/-- The result dictionary built by `check_url`: keys `url`, `status`,
`expired`, `reason`. -/
structure CheckResult where
  url : String
  status : Option Nat
  expired : Bool
  reason : String
deriving Repr, DecidableEq

/-- Outcome of the HEAD request: a status code, or a raised
`requests.exceptions.RequestException`. -/
inductive HeadOutcome where
  | ok (status : Nat)
  | exn
deriving Repr, DecidableEq

/-- A parsed `meta` tag: its attribute association list, as produced by
BeautifulSoup. -/
structure MetaTag where
  attrs : List (String × String)
deriving Repr, DecidableEq

/-- Outcome of the GET request: a response (status code, final
post-redirect URL, body text, the body parsed into meta tags, and the
`Retry-After` header), a `ReadTimeout`, or another
`RequestException` carrying its description. -/
inductive GetOutcome where
  | ok (status : Nat) (respUrl : String) (body : String)
      (metas : List MetaTag) (retryAfter : Option String)
  | readTimeout
  | exn (desc : String)
deriving Repr, DecidableEq

/-- Embedding of the Python builtin `str.strip()`: drop leading and
trailing whitespace characters. -/
def pyStrip (s : String) : String :=
  ⟨((s.data.dropWhile Char.isWhitespace).reverse.dropWhile
      Char.isWhitespace).reverse⟩

/-- Embedding of the Python builtin `str.lower()`: lower-case every
character. -/
def pyLower (s : String) : String :=
  ⟨s.data.map Char.toLower⟩

/-- Character-list membership test used to embed the Python substring
operator `in`: does the first list start the second? -/
def listPre : List Char → List Char → Bool
  | [], _ => true
  | _ :: _, [] => false
  | a :: as, b :: bs => a == b && listPre as bs

/-- Does `needle` occur somewhere in `hay` (as a contiguous run)? -/
def listOccurs (needle : List Char) : List Char → Bool
  | [] => listPre needle []
  | b :: bs => listPre needle (b :: bs) || listOccurs needle bs

/-- Embedding of Python `needle in hay` on strings. -/
def strContains (hay needle : String) : Bool :=
  listOccurs needle.data hay.data

/-- `tag.get(key)`: first binding of `key` in the attribute list. -/
def attrGet (t : MetaTag) (key : String) : Option String :=
  t.attrs.lookup key

/-- `soup.find("meta", dict of name description and property og:description)`:
the first meta tag whose `name` attribute is `"description"` and whose
`property` attribute is `"og:description"`. -/
def soupFindMeta (metas : List MetaTag) : Option MetaTag :=
  metas.find? (fun t =>
    attrGet t "name" == some "description" &&
    attrGet t "property" == some "og:description")

/-- The fixed expiration keyword list from `check_url`. -/
def keyword_list : List String :=
  ["job not found",
   "position has been filled",
   "no longer accepting applications",
   "job expired",
   "sorry, this job has expired",
   "the page you are looking for doesn\x27t exist."]

/-- Keyword scan: if any keyword occurs in the lower-cased body, mark
expired with the first matching keyword (`any` + `next` in the source). -/
def keywordPhase (body : String) (r : CheckResult) : CheckResult :=
  match keyword_list.find? (fun k => strContains (pyLower body) k) with
  | some kw =>
      { r with expired := true,
               reason := "Page content indicates expired job: " ++ kw }
  | none => r

/-- Workday provider check: applies when `"workday"` occurs in the
lower-cased URL; expired when no meta tag has both attributes
`name="description"` and `property="og:description"`, or the found
tag has empty/whitespace `content`. -/
def workdayPhase (url : String) (metas : List MetaTag) (r : CheckResult) :
    CheckResult :=
  if strContains (pyLower url) "workday" then
    match soupFindMeta metas with
    | none =>
        { r with expired := true,
                 reason := "Workday page missing meta og:description content" }
    | some t =>
        if pyStrip ((attrGet t "content").getD "") = "" then
          { r with expired := true,
                   reason := "Workday page missing meta og:description content" }
        else r
  else r

/-- Greenhouse provider check: expired when the final response URL
contains `?error=true`, else expired when the response URL differs from
the requested URL (a redirect happened). -/
def greenhousePhase (url respUrl : String) (r : CheckResult) : CheckResult :=
  if strContains (pyLower url) "greenhouse" then
    if strContains respUrl "?error=true" then
      { r with expired := true,
               reason := "Greenhouse page indicates expired job" }
    else if url ≠ respUrl then
      { r with expired := true, reason := "Greenhouse page redirected" }
    else r
  else r

/-- Jobvite provider check: expired when the final response URL contains
`?error=404`. -/
def jobvitePhase (url respUrl : String) (r : CheckResult) : CheckResult :=
  if strContains (pyLower url) "jobvite" then
    if strContains respUrl "?error=404" then
      { r with expired := true,
               reason := "Jobvite page indicates expired job" }
    else r
  else r

/-- The `verify_content` block of `check_url`: keyword scan then the
three provider checks, run in sequence on the result record. -/
def verifyChecks (url respUrl body : String) (metas : List MetaTag)
    (r : CheckResult) : CheckResult :=
  jobvitePhase url respUrl
    (greenhousePhase url respUrl
      (workdayPhase url metas (keywordPhase body r)))

/-- The GET half of `check_url`.  A read timeout gives an uncertain
(non-expired) result; another transport error gives an expired result
with a `Request Error` reason; otherwise the GET status code is stored
(a 429 only sleeps and evaluation continues), 404 and other error codes
(except 429) mark expired, and a non-error status runs the content
checks when `verify_content` holds. -/
def getPhase (verify_content : Bool) (url : String) (r : CheckResult)
    (g : GetOutcome) : CheckResult :=
  match g with
  | .readTimeout =>
      { r with expired := false, reason := "Read Timeout (uncertain status)" }
  | .exn desc =>
      { r with expired := true, reason := "Request Error: " ++ desc }
  | .ok s respUrl body metas _retryAfter =>
      let r := { r with status := some s }
      if s = 404 then
        { r with expired := true, reason := "404 Not Found (GET)" }
      else if 400 ≤ s ∧ s < 600 ∧ s ≠ 429 then
        { r with expired := true,
                 reason := "HTTP " ++ toString s ++ " (GET)" }
      else if verify_content then
        verifyChecks url respUrl body metas r
      else r

/-- `JobURLChecker.check_url`: strip the URL; an empty URL returns
immediately; try HEAD (404 and 4xx/5xx return early, a transport error
is only logged); then fall through to the GET phase. -/
def check_url (verify_content : Bool) (url0 : String) (h : HeadOutcome)
    (g : GetOutcome) : CheckResult :=
  let url := pyStrip url0
  if url = "" then
    { url := "", status := none, expired := true,
      reason := "Empty or invalid URL" }
  else
    let r : CheckResult :=
      { url := url, status := none, expired := false, reason := "" }
    match h with
    | .ok s =>
        let r := { r with status := some s }
        if s = 404 then
          { r with expired := true, reason := "404 Not Found (HEAD)" }
        else if 400 ≤ s ∧ s < 600 then
          { r with expired := true,
                   reason := "Error " ++ toString s ++ " (HEAD)" }
        else getPhase verify_content url r g
    | .exn => getPhase verify_content url r g

/-- The retry loop of `_single_url_task`, with fuel = remaining loop
iterations (`retries + 1` initially, since the loop runs while
`attempts <= retries`), `i` = attempts executed so far, `last` = the
last result whose status was `None`.  Returns the final result paired
with the total number of `check_url` calls made. -/
def single_url_task_aux (vc : Bool) (url : String)
    (oracle : Nat → HeadOutcome × GetOutcome) :
    Nat → Nat → Option CheckResult → CheckResult × Nat
  | 0, i, last =>
      (last.getD
        { url := url, status := none, expired := true,
          reason := "Max retries exceeded" }, i)
  | fuel + 1, i, _last =>
      let o := oracle i
      let r := check_url vc url o.1 o.2
      if r.status.isSome then (r, i + 1)
      else single_url_task_aux vc url oracle fuel (i + 1) (some r)

/-- `JobURLChecker._single_url_task`: repeat `check_url` while the
result has no status, for at most `retries + 1` attempts; a result with
a concrete status is returned at once; on budget exhaustion the last
status-less result is returned (or, were no attempt executed, the
synthesized `Max retries exceeded` record).  `oracle n` gives the
network outcomes of attempt `n`. -/
def single_url_task (vc : Bool) (retries : Nat) (url : String)
    (oracle : Nat → HeadOutcome × GetOutcome) : CheckResult :=
  (single_url_task_aux vc url oracle (retries + 1) 0 none).1

/-- Number of `check_url` calls `_single_url_task` performs. -/
def single_url_task_attempts (vc : Bool) (retries : Nat) (url : String)
    (oracle : Nat → HeadOutcome × GetOutcome) : Nat :=
  (single_url_task_aux vc url oracle (retries + 1) 0 none).2

/-- What `future.result()` yields for the future of one input index:
the worker finished with a result, or raised an exception whose string
form is `desc`. -/
inductive TaskOutcome where
  | done (r : CheckResult)
  | raised (desc : String)
deriving Repr, DecidableEq

/-- The record `process_urls` stores at index `i`: the future's result,
or — in the `except` branch — the synthesized record built from
`urls[index]` and the exception text. -/
def completedResult (urls : List String) (task : Nat → TaskOutcome)
    (i : Nat) : CheckResult :=
  match task i with
  | .done r => r
  | .raised desc =>
      { url := urls.getD i "", status := none, expired := true,
        reason := "Unhandled exception: " ++ desc }

/-- `JobURLChecker.process_urls`: preallocate `[None] * len(urls)`, then
for each completed future (in completion order `order`, a permutation of
the indices) store its record at its input index.  `task i` is the
future submitted for `urls[i]`. -/
def process_urls (urls : List String) (task : Nat → TaskOutcome)
    (order : List Nat) : List (Option CheckResult) :=
  order.foldl (fun acc i => acc.set i (some (completedResult urls task i)))
    (List.replicate urls.length none)

/-- Python `str` on the optional status (`str(None)` is `"None"`). -/
def pyStrStatus : Option Nat → String
  | none => "None"
  | some s => toString s

/-- Python `str` on a boolean (`"True"` / `"False"`). -/
def pyStrBool : Bool → String
  | true => "True"
  | false => "False"

/-- One CSV row of `save_results_to_csv`:
`[url, str(status), str(expired), reason, sheet_text]` with
`sheet_text = "No Longer Interested"` when expired, else empty. -/
def rowOf (r : CheckResult) : List String :=
  [r.url, pyStrStatus r.status, pyStrBool r.expired, r.reason,
   if r.expired then "No Longer Interested" else ""]

/-- Embedding of Python `", ".join`. -/
def joinComma : List String → String
  | [] => ""
  | [x] => x
  | x :: y :: xs => x ++ ", " ++ joinComma (y :: xs)

/-- `JobURLChecker.save_results_to_csv`: the list of lines written to
the file — the header row followed by one row per result, each joined
with `", "` and terminated by a newline. -/
def save_results_to_csv (results : List CheckResult) : List String :=
  ((["URL", "Status", "Expired", "Reason", "Sheet Text"]) ::
      results.map rowOf).map (fun row => joinComma row ++ "\n")

/-- The HEAD phase falls through to the GET request: the HEAD raised, or
returned a status that is neither 404 nor in [400, 600). -/
def headProceeds : HeadOutcome → Bool
  | .exn => true
  | .ok s => !(s == 404) && !(decide (400 ≤ s ∧ s < 600))

/-! ## Helper lemmas -/

theorem foldl_set_length (f : Nat → Option CheckResult) (order : List Nat)
    (acc : List (Option CheckResult)) :
    (order.foldl (fun a i => a.set i (f i)) acc).length = acc.length := by
  induction order generalizing acc with
  | nil => rfl
  | cons j rest ih => simp [List.foldl_cons, ih]

theorem foldl_set_get_of_not_mem (f : Nat → Option CheckResult)
    (order : List Nat) (acc : List (Option CheckResult)) (i : Nat)
    (hni : i ∉ order) :
    (order.foldl (fun a j => a.set j (f j)) acc)[i]? = acc[i]? := by
  induction order generalizing acc with
  | nil => rfl
  | cons j rest ih =>
    rw [List.foldl_cons, ih _ (fun h => hni (List.mem_cons_of_mem j h))]
    have hij : j ≠ i := by
      rintro rfl
      exact hni (List.mem_cons_self j rest)
    exact List.getElem?_set_ne hij

theorem foldl_set_get_of_mem (f : Nat → Option CheckResult) (order : List Nat)
    (acc : List (Option CheckResult)) (i : Nat) (hmem : i ∈ order)
    (hlen : i < acc.length) :
    (order.foldl (fun a j => a.set j (f j)) acc)[i]? = some (f i) := by
  induction order generalizing acc with
  | nil => cases hmem
  | cons j rest ih =>
    rw [List.foldl_cons]
    by_cases hr : i ∈ rest
    · exact ih _ hr (by simpa using hlen)
    · have hij : i = j := by
        rcases List.mem_cons.mp hmem with h | h
        · exact h
        · exact absurd h hr
      subst hij
      rw [foldl_set_get_of_not_mem f rest _ i hr]
      exact List.getElem?_set_eq_of_lt _ hlen

theorem process_urls_get (urls : List String) (task : Nat → TaskOutcome)
    (order : List Nat) (i : Nat) (hmem : i ∈ order) (hlen : i < urls.length) :
    (process_urls urls task order)[i]? =
      some (some (completedResult urls task i)) := by
  unfold process_urls
  exact foldl_set_get_of_mem (fun j => some (completedResult urls task j))
    order _ i hmem (by simpa using hlen)

theorem process_urls_length (urls : List String) (task : Nat → TaskOutcome)
    (order : List Nat) :
    (process_urls urls task order).length = urls.length := by
  unfold process_urls
  rw [foldl_set_length]
  exact List.length_replicate ..

theorem headProceeds_ok {s : Nat}
    (hp : headProceeds (HeadOutcome.ok s) = true) :
    s ≠ 404 ∧ ¬(400 ≤ s ∧ s < 600) := by
  simp only [headProceeds, Bool.and_eq_true, Bool.not_eq_true',
    beq_eq_false_iff_ne, ne_eq, decide_eq_false_iff_not] at hp
  exact hp

theorem check_url_ok_verify (url : String) (h : HeadOutcome) (s : Nat)
    (respUrl body : String) (metas : List MetaTag) (ra : Option String)
    (hne : pyStrip url ≠ "") (hp : headProceeds h = true)
    (h404 : s ≠ 404) (herr : ¬(400 ≤ s ∧ s < 600 ∧ s ≠ 429)) :
    check_url true url h (GetOutcome.ok s respUrl body metas ra) =
      verifyChecks (pyStrip url) respUrl body metas
        { url := pyStrip url, status := some s, expired := false,
          reason := "" } := by
  cases h with
  | exn => simp [check_url, getPhase, hne, h404, herr]
  | ok s0 =>
    obtain ⟨h1, h2⟩ := headProceeds_ok hp
    simp [check_url, getPhase, hne, h404, herr, h1, h2]

theorem keywordPhase_none (body : String)
    (hkw : ∀ k ∈ keyword_list, strContains (pyLower body) k = false)
    (r : CheckResult) :
    keywordPhase body r = r := by
  have hfind :
      keyword_list.find? (fun k => strContains (pyLower body) k) = none :=
    List.find?_eq_none.mpr (fun k hk => by simp [hkw k hk])
  simp [keywordPhase, hfind]

theorem workdayPhase_skip (url : String) (metas : List MetaTag)
    (hw : strContains (pyLower url) "workday" = false)
    (r : CheckResult) :
    workdayPhase url metas r = r := by
  simp [workdayPhase, hw]

theorem greenhousePhase_skip (url respUrl : String)
    (hg : strContains (pyLower url) "greenhouse" = false)
    (r : CheckResult) :
    greenhousePhase url respUrl r = r := by
  simp [greenhousePhase, hg]

theorem jobvitePhase_skip (url respUrl : String)
    (hj : strContains (pyLower url) "jobvite" = false)
    (r : CheckResult) :
    jobvitePhase url respUrl r = r := by
  simp [jobvitePhase, hj]

theorem greenhousePhase_expired (url respUrl : String) (r : CheckResult)
    (hr : r.expired = true) :
    (greenhousePhase url respUrl r).expired = true := by
  unfold greenhousePhase
  split_ifs <;> simp [hr]

theorem jobvitePhase_expired (url respUrl : String) (r : CheckResult)
    (hr : r.expired = true) :
    (jobvitePhase url respUrl r).expired = true := by
  unfold jobvitePhase
  split_ifs <;> simp [hr]

theorem workdayPhase_missing (url : String) (metas : List MetaTag)
    (hw : strContains (pyLower url) "workday" = true)
    (hmeta : ∀ t ∈ metas, attrGet t "property" = some "og:description" →
      pyStrip ((attrGet t "content").getD "") = "")
    (r : CheckResult) :
    workdayPhase url metas r =
      { r with expired := true,
               reason := "Workday page missing meta og:description content" } := by
  unfold workdayPhase
  rw [if_pos hw]
  cases hfind : soupFindMeta metas with
  | none => rfl
  | some t =>
    unfold soupFindMeta at hfind
    have hmem := List.mem_of_find?_eq_some hfind
    have hpred := List.find?_some hfind
    simp only [Bool.and_eq_true, beq_iff_eq] at hpred
    simp [hmeta t hmem hpred.2]

theorem workdayPhase_expired_of_no_good_meta (url : String)
    (metas : List MetaTag) (r : CheckResult)
    (hw : strContains (pyLower url) "workday" = true)
    (hnometa : ¬ ∃ t ∈ metas, attrGet t "name" = some "description" ∧
      attrGet t "property" = some "og:description" ∧
      pyStrip ((attrGet t "content").getD "") ≠ "") :
    (workdayPhase url metas r).expired = true := by
  unfold workdayPhase
  rw [if_pos hw]
  cases hfind : soupFindMeta metas with
  | none => rfl
  | some t =>
    unfold soupFindMeta at hfind
    have hmem := List.mem_of_find?_eq_some hfind
    have hpred := List.find?_some hfind
    simp only [Bool.and_eq_true, beq_iff_eq] at hpred
    have hcontent : pyStrip ((attrGet t "content").getD "") = "" := by
      by_contra hc
      exact hnometa ⟨t, hmem, hpred.1, hpred.2, hc⟩
    simp [hcontent]

theorem greenhousePhase_on (url respUrl : String)
    (hg : strContains (pyLower url) "greenhouse" = true)
    (r : CheckResult) :
    greenhousePhase url respUrl r =
      (if strContains respUrl "?error=true" then
        { r with expired := true,
                 reason := "Greenhouse page indicates expired job" }
       else if url ≠ respUrl then
        { r with expired := true, reason := "Greenhouse page redirected" }
       else r) := by
  simp [greenhousePhase, hg]

/-! ## Claims -/

/-- C1: for every input list of N URL strings, `process_urls` returns a
result sequence of exactly N records, where the record at position `i` is
the result produced for the URL at input position `i`, for every
completion order of the concurrent workers (any permutation of the input
indices). -/
theorem process_urls_ordered (urls : List String) (task : Nat → TaskOutcome)
    (order : List Nat) (hperm : order.Perm (List.range urls.length)) :
    (process_urls urls task order).length = urls.length ∧
    ∀ i, i < urls.length →
      (process_urls urls task order)[i]? =
        some (some (completedResult urls task i)) := by
  refine ⟨process_urls_length urls task order, fun i hi => ?_⟩
  exact process_urls_get urls task order i
    (hperm.mem_iff.mpr (List.mem_range.mpr hi)) hi

/-- Witness for C1 at a concrete two-element batch completed in reversed
order. -/
theorem process_urls_ordered_witness :
    (process_urls ["http://a.example/1", "http://b.example/2"]
        (fun _ => TaskOutcome.done
          { url := "u", status := some 200, expired := false, reason := "" })
        [1, 0]).length = 2 ∧
    (process_urls ["http://a.example/1", "http://b.example/2"]
        (fun _ => TaskOutcome.done
          { url := "u", status := some 200, expired := false, reason := "" })
        [1, 0])[0]? =
      some (some (completedResult ["http://a.example/1", "http://b.example/2"]
        (fun _ => TaskOutcome.done
          { url := "u", status := some 200, expired := false, reason := "" })
        0)) := by
  have h := process_urls_ordered ["http://a.example/1", "http://b.example/2"]
    (fun _ => TaskOutcome.done
      { url := "u", status := some 200, expired := false, reason := "" })
    [1, 0] (by decide)
  exact ⟨h.1, h.2 0 (by decide)⟩

/-- C2 counterexample: with `retries = 2` and every attempt failing in
transport, three attempts are made, but the returned record is the last
attempt result — `expired = true` with reason `Request Error: boom` —
not the claimed `expired = false` with reason `Max retries exceeded`. -/
theorem single_url_task_claimed_result_cex :
    single_url_task_attempts false 2 "http://a.example/x"
        (fun _ => (HeadOutcome.exn, GetOutcome.exn "boom")) = 3 ∧
    (single_url_task false 2 "http://a.example/x"
        (fun _ => (HeadOutcome.exn, GetOutcome.exn "boom"))).expired = true ∧
    (single_url_task false 2 "http://a.example/x"
        (fun _ => (HeadOutcome.exn, GetOutcome.exn "boom"))).reason =
      "Request Error: boom" :=
  ⟨rfl, rfl, rfl⟩

/-- C2 (amended): with `retries = 2` and a non-empty URL whose every
network attempt fails to connect, the retry controller performs exactly
3 classification attempts and returns the last attempt result
`{status: None, expired: true, reason: "Request Error: <description>"}`
(the synthesized `Max retries exceeded` record is unreachable because at
least one attempt always runs). -/
theorem single_url_task_transport_failure (vc : Bool) (url desc : String)
    (hne : pyStrip url ≠ "") :
    single_url_task_attempts vc 2 url
        (fun _ => (HeadOutcome.exn, GetOutcome.exn desc)) = 3 ∧
    single_url_task vc 2 url
        (fun _ => (HeadOutcome.exn, GetOutcome.exn desc)) =
      { url := pyStrip url, status := none, expired := true,
        reason := "Request Error: " ++ desc } := by
  have hc : check_url vc url HeadOutcome.exn (GetOutcome.exn desc) =
      { url := pyStrip url, status := none, expired := true,
        reason := "Request Error: " ++ desc } := by
    simp [check_url, getPhase, hne]
  constructor <;>
    simp [single_url_task_attempts, single_url_task, single_url_task_aux, hc]

/-- Witness for C2 (amended) at a concrete URL and failure description. -/
theorem single_url_task_transport_failure_witness :
    single_url_task_attempts true 2 "http://w.example/j"
        (fun _ => (HeadOutcome.exn, GetOutcome.exn "connection refused")) = 3 ∧
    single_url_task true 2 "http://w.example/j"
        (fun _ => (HeadOutcome.exn, GetOutcome.exn "connection refused")) =
      { url := pyStrip "http://w.example/j", status := none, expired := true,
        reason := "Request Error: " ++ "connection refused" } :=
  single_url_task_transport_failure true "http://w.example/j"
    "connection refused" (by decide)

/-- C3 counterexample: on the empty URL the classifier returns
`expired = true` with reason `Empty or invalid URL`, not the claimed
`expired = false` with reason `Empty URL`. -/
theorem check_url_empty_url_cex :
    (check_url false "" HeadOutcome.exn (GetOutcome.exn "e")).expired = true ∧
    (check_url false "" HeadOutcome.exn (GetOutcome.exn "e")).reason =
      "Empty or invalid URL" :=
  ⟨rfl, rfl⟩

/-- C3 (amended): for every URL string that is empty or whitespace-only,
the classifier immediately returns
`{url: "", status: None, expired: true, reason: "Empty or invalid URL"}`
without issuing any network request (the result does not depend on the
network outcomes). -/
theorem check_url_empty_url (vc : Bool) (url : String) (h : HeadOutcome)
    (g : GetOutcome) (he : pyStrip url = "") :
    check_url vc url h g =
      { url := "", status := none, expired := true,
        reason := "Empty or invalid URL" } := by
  simp [check_url, he]

/-- Witness for C3 (amended) at a whitespace-only URL. -/
theorem check_url_empty_url_witness :
    pyStrip "   " = "" ∧
    check_url true "   " (HeadOutcome.ok 200)
        (GetOutcome.ok 200 "u" "b" [] none) =
      { url := "", status := none, expired := true,
        reason := "Empty or invalid URL" } :=
  ⟨by decide, check_url_empty_url true "   " (HeadOutcome.ok 200)
    (GetOutcome.ok 200 "u" "b" [] none) (by decide)⟩

/-- C4 counterexample: a GET failing with a non-timeout transport error
yields `expired = true` (the code treats it as expired), not the claimed
`expired = false`. -/
theorem check_url_request_error_cex :
    (check_url false "http://b.example/y" HeadOutcome.exn
        (GetOutcome.exn "conn refused")).expired = true ∧
    (check_url false "http://b.example/y" HeadOutcome.exn
        (GetOutcome.exn "conn refused")).reason =
      "Request Error: conn refused" :=
  ⟨rfl, rfl⟩

/-- C4 (amended): for every non-empty URL whose GET request fails with a
transport error other than a read timeout (the HEAD having fallen
through), the classifier returns `expired = true` with reason
`Request Error: <description>`; no exception propagates (the classifier
is a total function). -/
theorem check_url_request_error (vc : Bool) (url desc : String)
    (h : HeadOutcome) (hne : pyStrip url ≠ "")
    (hp : headProceeds h = true) :
    (check_url vc url h (GetOutcome.exn desc)).expired = true ∧
    (check_url vc url h (GetOutcome.exn desc)).reason =
      "Request Error: " ++ desc := by
  cases h with
  | exn => simp [check_url, getPhase, hne]
  | ok s =>
    obtain ⟨h1, h2⟩ := headProceeds_ok hp
    simp [check_url, getPhase, hne, h1, h2]

/-- Witness for C4 (amended): concrete URL, HEAD returned 200, GET
raised. -/
theorem check_url_request_error_witness :
    (check_url true "http://c.example/z" (HeadOutcome.ok 200)
        (GetOutcome.exn "reset by peer")).expired = true ∧
    (check_url true "http://c.example/z" (HeadOutcome.ok 200)
        (GetOutcome.exn "reset by peer")).reason =
      "Request Error: " ++ "reset by peer" :=
  check_url_request_error true "http://c.example/z" "reset by peer"
    (HeadOutcome.ok 200) (by decide) (by decide)

/-- C5 counterexample: a worker exception is stored as a synthetic
record with `expired = true`, not the claimed `expired = false`. -/
theorem process_urls_exception_cex :
    process_urls ["http://d.example/j"]
        (fun _ => TaskOutcome.raised "boom") [0] =
      [some { url := "http://d.example/j", status := none, expired := true,
              reason := "Unhandled exception: boom" }] :=
  rfl

/-- C5 (amended): when the worker for index `i` raises an unexpected
internal failure, the dispatcher catches it at its boundary and stores
at index `i` the synthetic record
`{url: urls[i], status: None, expired: true, reason: "Unhandled exception: <description>"}`,
and every other URL of the batch is still processed to its own
record. -/
theorem process_urls_exception (urls : List String)
    (task : Nat → TaskOutcome) (order : List Nat) (i : Nat) (desc : String)
    (hperm : order.Perm (List.range urls.length)) (hi : i < urls.length)
    (ht : task i = TaskOutcome.raised desc) :
    (process_urls urls task order)[i]? =
      some (some { url := urls.getD i "", status := none, expired := true,
                   reason := "Unhandled exception: " ++ desc }) ∧
    (process_urls urls task order).length = urls.length ∧
    ∀ j, j < urls.length →
      (process_urls urls task order)[j]? =
        some (some (completedResult urls task j)) := by
  have hmem : i ∈ order := hperm.mem_iff.mpr (List.mem_range.mpr hi)
  refine ⟨?_, process_urls_length urls task order, fun j hj =>
    process_urls_get urls task order j
      (hperm.mem_iff.mpr (List.mem_range.mpr hj)) hj⟩
  rw [process_urls_get urls task order i hmem hi]
  unfold completedResult
  rw [ht]

/-- Witness for C5 (amended): a two-element batch where the worker for
index 0 raises and the worker for index 1 completes. -/
theorem process_urls_exception_witness :
    (process_urls ["http://a1.example", "http://b2.example"]
        (fun n => if n = 0 then TaskOutcome.raised "oops"
          else TaskOutcome.done
            { url := "http://b2.example", status := some 200,
              expired := false, reason := "" }) [1, 0])[0]? =
      some (some { url := "http://a1.example", status := none,
                   expired := true,
                   reason := "Unhandled exception: " ++ "oops" }) ∧
    (process_urls ["http://a1.example", "http://b2.example"]
        (fun n => if n = 0 then TaskOutcome.raised "oops"
          else TaskOutcome.done
            { url := "http://b2.example", status := some 200,
              expired := false, reason := "" }) [1, 0]).length = 2 ∧
    (process_urls ["http://a1.example", "http://b2.example"]
        (fun n => if n = 0 then TaskOutcome.raised "oops"
          else TaskOutcome.done
            { url := "http://b2.example", status := some 200,
              expired := false, reason := "" }) [1, 0])[1]? =
      some (some (completedResult ["http://a1.example", "http://b2.example"]
        (fun n => if n = 0 then TaskOutcome.raised "oops"
          else TaskOutcome.done
            { url := "http://b2.example", status := some 200,
              expired := false, reason := "" }) 1)) := by
  have h := process_urls_exception ["http://a1.example", "http://b2.example"]
    (fun n => if n = 0 then TaskOutcome.raised "oops"
      else TaskOutcome.done
        { url := "http://b2.example", status := some 200,
          expired := false, reason := "" }) [1, 0] 0 "oops"
    (by decide) (by decide) rfl
  exact ⟨by simpa using h.1, h.2.1, h.2.2 1 (by decide)⟩

/-- C6 counterexample: a 200 response with content verification on and
no heuristic match leaves `reason` as the empty string, contradicting
both the non-empty-reason invariant and the claimed reason `OK`. -/
theorem check_url_reason_empty_cex :
    check_url true "http://e.example/ok" (HeadOutcome.ok 200)
        (GetOutcome.ok 200 "http://e.example/ok" "all good" [] none) =
      { url := "http://e.example/ok", status := some 200, expired := false,
        reason := "" } :=
  rfl

/-- C6 (amended): a `reason` can be empty — for every non-empty URL with
a non-error GET status, content verification enabled, no keyword
matching the body and no provider substring in the URL, the classifier
returns `expired = false` with `reason = ""` (the initial value, never
overwritten). -/
theorem check_url_no_match_reason (url : String) (h : HeadOutcome)
    (s : Nat) (respUrl body : String) (metas : List MetaTag)
    (ra : Option String)
    (hne : pyStrip url ≠ "") (hp : headProceeds h = true)
    (h404 : s ≠ 404) (herr : ¬(400 ≤ s ∧ s < 600 ∧ s ≠ 429))
    (hkw : ∀ k ∈ keyword_list, strContains (pyLower body) k = false)
    (hw : strContains (pyLower (pyStrip url)) "workday" = false)
    (hg : strContains (pyLower (pyStrip url)) "greenhouse" = false)
    (hj : strContains (pyLower (pyStrip url)) "jobvite" = false) :
    check_url true url h (GetOutcome.ok s respUrl body metas ra) =
      { url := pyStrip url, status := some s, expired := false,
        reason := "" } := by
  rw [check_url_ok_verify url h s respUrl body metas ra hne hp h404 herr]
  unfold verifyChecks
  rw [keywordPhase_none body hkw, workdayPhase_skip _ _ hw,
    greenhousePhase_skip _ _ hg, jobvitePhase_skip _ _ hj]

/-- Witness for C6 (amended) at a concrete 200 response. -/
theorem check_url_no_match_reason_witness :
    check_url true "http://f.example/live" (HeadOutcome.ok 200)
        (GetOutcome.ok 200 "http://f.example/live" "everything fine"
          [] none) =
      { url := pyStrip "http://f.example/live", status := some 200,
        expired := false, reason := "" } :=
  check_url_no_match_reason "http://f.example/live" (HeadOutcome.ok 200)
    200 "http://f.example/live" "everything fine" [] none
    (by decide) (by decide) (by decide) (by decide) (by decide)
    (by decide) (by decide) (by decide)

/-- C7 counterexample: the serializer joins fields with a comma AND a
space, so the header line is `URL, Status, Expired, Reason, Sheet Text`,
not the claimed `URL,Status,Expired,Reason,Sheet Text`. -/
theorem save_results_header_cex :
    save_results_to_csv [] = ["URL, Status, Expired, Reason, Sheet Text\n"] ∧
    "URL, Status, Expired, Reason, Sheet Text\n" ≠
      "URL,Status,Expired,Reason,Sheet Text\n" :=
  ⟨rfl, by decide⟩

/-- C7 (amended): every result list is serialized to the header line
`URL, Status, Expired, Reason, Sheet Text` (fields separated by a comma
and a space) followed by one line per record
`url, status, expired, reason, sheet-text`, where the sheet-text field
is exactly `No Longer Interested` when the record is expired and empty
otherwise, the status field is the decimal status (the string `None`
when no status was obtained) and the expired field is `True`/`False`;
this byte-level format is the same for every result list. -/
theorem save_results_to_csv_format (results : List CheckResult) :
    save_results_to_csv results =
      "URL, Status, Expired, Reason, Sheet Text\n" ::
        results.map (fun r =>
          r.url ++ ", " ++ pyStrStatus r.status ++ ", " ++
            pyStrBool r.expired ++ ", " ++ r.reason ++ ", " ++
            (if r.expired then "No Longer Interested" else "") ++ "\n") := by
  unfold save_results_to_csv
  rw [List.map_cons, List.map_map]
  refine congrArg₂ List.cons rfl ?_
  refine List.map_congr_left ?_
  intro r _
  simp [rowOf, joinComma, Function.comp, String.append_assoc]

/-- C8 counterexample: a greenhouse URL whose GET was redirected to a
final URL without `?error=true` is still marked expired (reason
`Greenhouse page redirected`), contradicting the claimed equivalence of
expiry with the presence of `?error=true`. -/
theorem greenhouse_redirect_cex :
    strContains "https://boards.greenhouse.io/y" "?error=true" = false ∧
    check_url true "https://boards.greenhouse.io/x" (HeadOutcome.ok 200)
        (GetOutcome.ok 200 "https://boards.greenhouse.io/y" "" [] none) =
      { url := "https://boards.greenhouse.io/x", status := some 200,
        expired := true, reason := "Greenhouse page redirected" } :=
  ⟨rfl, rfl⟩

/-- C8 (amended): for a greenhouse URL (not also matching the workday or
jobvite substrings) with a non-error GET status, content verification on
and no keyword match, the result is expired with reason
`Greenhouse page indicates expired job` when the final response URL
contains `?error=true`, expired with reason `Greenhouse page redirected`
when the final response URL merely differs from the requested URL, and
not expired (empty reason) only when the final URL equals the requested
URL. -/
theorem greenhouse_classification (url : String) (h : HeadOutcome)
    (s : Nat) (respUrl body : String) (metas : List MetaTag)
    (ra : Option String)
    (hne : pyStrip url ≠ "") (hp : headProceeds h = true)
    (h404 : s ≠ 404) (herr : ¬(400 ≤ s ∧ s < 600 ∧ s ≠ 429))
    (hkw : ∀ k ∈ keyword_list, strContains (pyLower body) k = false)
    (hg : strContains (pyLower (pyStrip url)) "greenhouse" = true)
    (hw : strContains (pyLower (pyStrip url)) "workday" = false)
    (hj : strContains (pyLower (pyStrip url)) "jobvite" = false) :
    (check_url true url h (GetOutcome.ok s respUrl body metas ra)).expired =
      (strContains respUrl "?error=true" ||
        decide (pyStrip url ≠ respUrl)) ∧
    (check_url true url h (GetOutcome.ok s respUrl body metas ra)).reason =
      (if strContains respUrl "?error=true" then
        "Greenhouse page indicates expired job"
       else if pyStrip url ≠ respUrl then "Greenhouse page redirected"
       else "") := by
  rw [check_url_ok_verify url h s respUrl body metas ra hne hp h404 herr]
  unfold verifyChecks
  rw [keywordPhase_none body hkw, workdayPhase_skip _ _ hw,
    greenhousePhase_on _ _ hg, jobvitePhase_skip _ _ hj]
  by_cases h1 : strContains respUrl "?error=true" = true
  · simp [h1]
  · by_cases h2 : pyStrip url = respUrl
    · simp [h1, h2]
    · simp [h1, h2]

/-- Witness for C8 (amended) at a concrete redirected greenhouse URL. -/
theorem greenhouse_classification_witness :
    (check_url true "https://boards.greenhouse.io/a" (HeadOutcome.ok 200)
        (GetOutcome.ok 200 "https://boards.greenhouse.io/b" "fine" []
          none)).expired =
      (strContains "https://boards.greenhouse.io/b" "?error=true" ||
        decide (pyStrip "https://boards.greenhouse.io/a" ≠
          "https://boards.greenhouse.io/b")) ∧
    (check_url true "https://boards.greenhouse.io/a" (HeadOutcome.ok 200)
        (GetOutcome.ok 200 "https://boards.greenhouse.io/b" "fine" []
          none)).reason =
      (if strContains "https://boards.greenhouse.io/b" "?error=true" then
        "Greenhouse page indicates expired job"
       else if pyStrip "https://boards.greenhouse.io/a" ≠
          "https://boards.greenhouse.io/b" then "Greenhouse page redirected"
       else "") :=
  greenhouse_classification "https://boards.greenhouse.io/a"
    (HeadOutcome.ok 200) 200 "https://boards.greenhouse.io/b" "fine" [] none
    (by decide) (by decide) (by decide) (by decide) (by decide)
    (by decide) (by decide) (by decide)

/-- C9 counterexample: a workday URL whose page has no `og:description`
meta tag gets reason `Workday page missing meta og:description content`,
not the claimed reason `Workday page missing og:description`. -/
theorem workday_reason_cex :
    (check_url true "https://x.workday.com/j" (HeadOutcome.ok 200)
        (GetOutcome.ok 200 "https://x.workday.com/j" "" [] none)).reason =
      "Workday page missing meta og:description content" ∧
    "Workday page missing meta og:description content" ≠
      "Workday page missing og:description" :=
  ⟨rfl, by decide⟩

/-- C9 (amended): for a workday URL (not also matching the greenhouse or
jobvite substrings) with a non-error GET status and content verification
on, if every meta tag with property `og:description` has empty or
whitespace content (in particular when no such tag exists), the result
is `{expired: true, reason: "Workday page missing meta og:description content"}`. -/
theorem workday_missing_meta (url : String) (h : HeadOutcome) (s : Nat)
    (respUrl body : String) (metas : List MetaTag) (ra : Option String)
    (hne : pyStrip url ≠ "") (hp : headProceeds h = true)
    (h404 : s ≠ 404) (herr : ¬(400 ≤ s ∧ s < 600 ∧ s ≠ 429))
    (hw : strContains (pyLower (pyStrip url)) "workday" = true)
    (hg : strContains (pyLower (pyStrip url)) "greenhouse" = false)
    (hj : strContains (pyLower (pyStrip url)) "jobvite" = false)
    (hmeta : ∀ t ∈ metas, attrGet t "property" = some "og:description" →
      pyStrip ((attrGet t "content").getD "") = "") :
    (check_url true url h
        (GetOutcome.ok s respUrl body metas ra)).expired = true ∧
    (check_url true url h
        (GetOutcome.ok s respUrl body metas ra)).reason =
      "Workday page missing meta og:description content" := by
  rw [check_url_ok_verify url h s respUrl body metas ra hne hp h404 herr]
  unfold verifyChecks
  rw [workdayPhase_missing _ _ hw hmeta, greenhousePhase_skip _ _ hg,
    jobvitePhase_skip _ _ hj]
  exact ⟨rfl, rfl⟩

/-- Witness for C9 (amended): a workday page whose only
`og:description` meta tag has whitespace content. -/
theorem workday_missing_meta_witness :
    (check_url true "https://y.wd5.myworkdayjobs.com/r" (HeadOutcome.ok 200)
        (GetOutcome.ok 200 "https://y.wd5.myworkdayjobs.com/r" "page"
          [MetaTag.mk [("name", "description"),
            ("property", "og:description"), ("content", "  ")]]
          none)).expired = true ∧
    (check_url true "https://y.wd5.myworkdayjobs.com/r" (HeadOutcome.ok 200)
        (GetOutcome.ok 200 "https://y.wd5.myworkdayjobs.com/r" "page"
          [MetaTag.mk [("name", "description"),
            ("property", "og:description"), ("content", "  ")]]
          none)).reason =
      "Workday page missing meta og:description content" :=
  workday_missing_meta "https://y.wd5.myworkdayjobs.com/r"
    (HeadOutcome.ok 200) 200 "https://y.wd5.myworkdayjobs.com/r" "page"
    [MetaTag.mk [("name", "description"),
      ("property", "og:description"), ("content", "  ")]] none
    (by decide) (by decide) (by decide) (by decide) (by decide)
    (by decide) (by decide) (by decide)

/-- C10: for a workday URL with a non-error GET status and content
verification on, the result is marked expired whenever the page has no
meta tag carrying both `name="description"` and
`property="og:description"` with non-empty (after stripping) content;
in particular a page whose `og:description` tag has only the `property`
attribute is classified as expired. -/
theorem workday_expired_unless_meta (url : String) (h : HeadOutcome)
    (s : Nat) (respUrl body : String) (metas : List MetaTag)
    (ra : Option String)
    (hne : pyStrip url ≠ "") (hp : headProceeds h = true)
    (h404 : s ≠ 404) (herr : ¬(400 ≤ s ∧ s < 600 ∧ s ≠ 429))
    (hw : strContains (pyLower (pyStrip url)) "workday" = true)
    (hnometa : ¬ ∃ t ∈ metas, attrGet t "name" = some "description" ∧
      attrGet t "property" = some "og:description" ∧
      pyStrip ((attrGet t "content").getD "") ≠ "") :
    (check_url true url h
        (GetOutcome.ok s respUrl body metas ra)).expired = true := by
  rw [check_url_ok_verify url h s respUrl body metas ra hne hp h404 herr]
  unfold verifyChecks
  exact jobvitePhase_expired _ _ _ (greenhousePhase_expired _ _ _
    (workdayPhase_expired_of_no_good_meta _ _ _ hw hnometa))

/-- Witness for C10: a workday page whose `og:description` meta tag has
only the `property` attribute (no `name="description"`), with non-empty
content — still classified expired. -/
theorem workday_expired_unless_meta_witness :
    (check_url true "https://z.workday.com/p" (HeadOutcome.ok 200)
        (GetOutcome.ok 200 "https://z.workday.com/p" "page"
          [MetaTag.mk [("property", "og:description"),
            ("content", "A real live job")]]
          none)).expired = true :=
  workday_expired_unless_meta "https://z.workday.com/p"
    (HeadOutcome.ok 200) 200 "https://z.workday.com/p" "page"
    [MetaTag.mk [("property", "og:description"),
      ("content", "A real live job")]] none
    (by decide) (by decide) (by decide) (by decide) (by decide)
    (by decide)
